import Mathlib

set_option maxRecDepth 4000

/-
  Verification development for the clixon NETCONF backend sources.

  Embedded here:
  * the NETCONF error encoder of clixon_netconf_lib.c (the netconf_* error
    constructors, both the cbuf/string producing ones and the XML tree
    producing ones, and netconf_trymerge);
  * the confirmed-commit constants and state enumeration of backend_commit.h;
  * the static SNMP table registration walk of snmp_register.c
    (mibyang_table_traverse_static).

  The XML tree library and string helpers that the encoder calls
  (xml_new/xml_parse_va, xml_find, clicon_xml2cbuf, xml_chardata_encode,
  xml_merge) are not part of the sources; the first four are modelled below
  from the spec (character data between tags is kept literally as passed by
  the caller; the escaping done on parse and the unescaping done on
  serialization by the external library cancel out on every path embedded
  here), and xml_merge is abstracted as an oracle parameter.
-/

/-- XML tree as built by the clixon cxobj library: an element with a name and
an ordered list of children, or a character-data (body) node. Attributes are
not used by any of the embedded functions. -/
inductive XML where
  | elem (name : String) (children : List XML)
  | text (s : String)

/-- Name of a node; character-data nodes are named body in cxobj. -/
def xml_name : XML → String
  | .elem n _ => n
  | .text _ => "body"

/-- Children of a node. -/
def xml_children : XML → List XML
  | .elem _ cs => cs
  | .text _ => []

/-- Escape of one character of XML character data. -/
def escChar (c : Char) : String :=
  if c = '&' then "&amp;"
  else if c = '<' then "&lt;"
  else if c = '>' then "&gt;"
  else String.singleton c

/-- Modelled from the spec: xml_chardata_encode (defined in clixon_string.c,
which is not among the sources) XML-escapes character data, replacing the
XML special characters by entity references. -/
def xml_chardata_encode (s : String) : String :=
  String.join (s.data.map escChar)

/-- Children created for character data appearing between tags: empty content
yields no body node, otherwise one body node holding the data. -/
def bodyChildren (s : String) : List XML :=
  if s = "" then [] else [XML.text s]

/-- Element with character-data content, as produced by xml_parse_va on a
format such as an error-type element holding a value. -/
def xtext (n s : String) : XML := XML.elem n (bodyChildren s)

mutual

/-- Modelled from the spec: clicon_xml2cbuf (defined in clixon_xml.c, which is
not among the sources) with pretty-printing off renders an element as start
tag, children, end tag; a childless element as an empty-element tag; and a
body node as its character data. -/
def render : XML → String
  | .text s => s
  | .elem n [] => "<" ++ n ++ "/>"
  | .elem n (c :: cs) => "<" ++ n ++ ">" ++ render c ++ renderL cs ++ "</" ++ n ++ ">"

/-- Rendering of a list of sibling nodes, in order. -/
def renderL : List XML → String
  | [] => ""
  | c :: cs => render c ++ renderL cs

end

/-- First child with the given name (clixon xml_find). Modelled from the spec:
xml_find is defined in clixon_xml.c, which is not among the sources. -/
def findChild (x : XML) (n : String) : Option XML :=
  (xml_children x).find? (fun c => xml_name c == n)

/-- Alias under the name used by the source. -/
def xml_find (x : XML) (n : String) : Option XML := findChild x n

/-- Shared head of every tree-building constructor in clixon_netconf_lib.c:
with xret = none a fresh rpc-reply root is created; otherwise the existing
root is renamed to rpc-reply (xml_name_set) and the new rpc-error element is
appended after its existing children (xml_new appends). A body node as root
never occurs at the call sites; it is treated like a fresh root to keep the
function total. -/
def installRpcError (xret : Option XML) (errcs : List XML) : XML :=
  match xret with
  | none => XML.elem "rpc-reply" [XML.elem "rpc-error" errcs]
  | some (XML.elem _ cs) => XML.elem "rpc-reply" (cs ++ [XML.elem "rpc-error" errcs])
  | some (XML.text _) => XML.elem "rpc-reply" [XML.elem "rpc-error" errcs]

/-- The optional error-message part of a serialized envelope: present exactly
when the message argument is non-NULL, with the message chardata-encoded. -/
def msgPartStr : Option String → String
  | none => ""
  | some m => "<error-message>" ++ xml_chardata_encode m ++ "</error-message>"

/-- The optional error-message element of a tree envelope: present exactly
when the message argument is non-NULL, with the message chardata-encoded. -/
def msgPartXml : Option String → List XML
  | none => []
  | some m => [xtext "error-message" (xml_chardata_encode m)]

/-- netconf_in_use: serialized in-use error (cbuf only in the source). -/
def netconf_in_use (type : String) (message : Option String) : String :=
  "<rpc-reply><rpc-error>" ++ "<error-type>" ++ type ++ "</error-type>" ++
  "<error-tag>in-use</error-tag>" ++ "<error-severity>error</error-severity>" ++
  msgPartStr message ++ "</rpc-error></rpc-reply>"

/-- netconf_invalid_value_xml: invalid-value error as an XML tree. -/
def netconf_invalid_value_xml (xret : Option XML) (type : String)
    (message : Option String) : XML :=
  installRpcError xret
    ([xtext "error-type" type, xtext "error-tag" "invalid-value",
      xtext "error-severity" "error"] ++ msgPartXml message)

/-- netconf_invalid_value: serialized invalid-value error; the source builds
the tree with netconf_invalid_value_xml and renders it with clicon_xml2cbuf. -/
def netconf_invalid_value (type : String) (message : Option String) : String :=
  render (netconf_invalid_value_xml none type message)

/-- netconf_too_big: serialized too-big error (cbuf only in the source). -/
def netconf_too_big (type : String) (message : Option String) : String :=
  "<rpc-reply><rpc-error>" ++ "<error-type>" ++ type ++ "</error-type>" ++
  "<error-tag>too-big</error-tag>" ++ "<error-severity>error</error-severity>" ++
  msgPartStr message ++ "</rpc-error></rpc-reply>"

/-- netconf_missing_attribute: serialized missing-attribute error; note the
source prints error-info before error-severity. -/
def netconf_missing_attribute (type info : String) (message : Option String) : String :=
  "<rpc-reply><rpc-error>" ++ "<error-type>" ++ type ++ "</error-type>" ++
  "<error-tag>missing-attribute</error-tag>" ++
  "<error-info>" ++ info ++ "</error-info>" ++
  "<error-severity>error</error-severity>" ++
  msgPartStr message ++ "</rpc-error></rpc-reply>"

/-- netconf_bad_attribute: serialized bad-attribute error. -/
def netconf_bad_attribute (type info : String) (message : Option String) : String :=
  "<rpc-reply><rpc-error>" ++ "<error-type>" ++ type ++ "</error-type>" ++
  "<error-tag>bad-attribute</error-tag>" ++
  "<error-info>" ++ info ++ "</error-info>" ++
  "<error-severity>error</error-severity>" ++
  msgPartStr message ++ "</rpc-error></rpc-reply>"

/-- netconf_unknown_attribute: serialized unknown-attribute error. -/
def netconf_unknown_attribute (type info : String) (message : Option String) : String :=
  "<rpc-reply><rpc-error>" ++ "<error-type>" ++ type ++ "</error-type>" ++
  "<error-tag>unknown-attribute</error-tag>" ++
  "<error-info>" ++ info ++ "</error-info>" ++
  "<error-severity>error</error-severity>" ++
  msgPartStr message ++ "</rpc-error></rpc-reply>"

/-- netconf_common_xml: shared tree builder for the bad-element family; the
error-info element wraps the given element name in the given info tag, and is
placed before error-severity. -/
def netconf_common_xml (xret : Option XML) (type tag infotag element : String)
    (message : Option String) : XML :=
  installRpcError xret
    ([xtext "error-type" type, xtext "error-tag" tag,
      XML.elem "error-info" [xtext infotag element],
      xtext "error-severity" "error"] ++ msgPartXml message)

/-- netconf_missing_element_xml. -/
def netconf_missing_element_xml (xret : Option XML) (type element : String)
    (message : Option String) : XML :=
  netconf_common_xml xret type "missing-element" "bad-element" element message

/-- netconf_missing_element: tree built by netconf_common_xml, then rendered. -/
def netconf_missing_element (type element : String) (message : Option String) : String :=
  render (netconf_missing_element_xml none type element message)

/-- netconf_bad_element_xml. -/
def netconf_bad_element_xml (xret : Option XML) (type element : String)
    (message : Option String) : XML :=
  netconf_common_xml xret type "bad-element" "bad-element" element message

/-- netconf_bad_element. -/
def netconf_bad_element (type element : String) (message : Option String) : String :=
  render (netconf_bad_element_xml none type element message)

/-- netconf_unknown_element_xml. -/
def netconf_unknown_element_xml (xret : Option XML) (type element : String)
    (message : Option String) : XML :=
  netconf_common_xml xret type "unknown-element" "bad-element" element message

/-- netconf_unknown_element. -/
def netconf_unknown_element (type element : String) (message : Option String) : String :=
  render (netconf_unknown_element_xml none type element message)

/-- netconf_unknown_namespace_xml. -/
def netconf_unknown_namespace_xml (xret : Option XML) (type ns : String)
    (message : Option String) : XML :=
  netconf_common_xml xret type "unknown-namespace" "bad-namespace" ns message

/-- netconf_unknown_namespace. -/
def netconf_unknown_namespace (type ns : String) (message : Option String) : String :=
  render (netconf_unknown_namespace_xml none type ns message)

/-- netconf_access_denied_xml: access-denied error as an XML tree. -/
def netconf_access_denied_xml (xret : Option XML) (type : String)
    (message : Option String) : XML :=
  installRpcError xret
    ([xtext "error-type" type, xtext "error-tag" "access-denied",
      xtext "error-severity" "error"] ++ msgPartXml message)

/-- netconf_access_denied: tree built by netconf_access_denied_xml, rendered. -/
def netconf_access_denied (type : String) (message : Option String) : String :=
  render (netconf_access_denied_xml none type message)

/-- netconf_lock_denied: serialized lock-denied error; error-type is the
hardcoded protocol and error-info is printed before error-severity. -/
def netconf_lock_denied (info : String) (message : Option String) : String :=
  "<rpc-reply><rpc-error>" ++ "<error-type>protocol</error-type>" ++
  "<error-tag>lock-denied</error-tag>" ++
  "<error-info>" ++ info ++ "</error-info>" ++
  "<error-severity>error</error-severity>" ++
  msgPartStr message ++ "</rpc-error></rpc-reply>"

/-- netconf_resource_denied: serialized resource-denied error. -/
def netconf_resource_denied (type : String) (message : Option String) : String :=
  "<rpc-reply><rpc-error>" ++ "<error-type>" ++ type ++ "</error-type>" ++
  "<error-tag>resource-denied</error-tag>" ++ "<error-severity>error</error-severity>" ++
  msgPartStr message ++ "</rpc-error></rpc-reply>"

/-- netconf_rollback_failed: serialized rollback-failed error. -/
def netconf_rollback_failed (type : String) (message : Option String) : String :=
  "<rpc-reply><rpc-error>" ++ "<error-type>" ++ type ++ "</error-type>" ++
  "<error-tag>rollback-failed</error-tag>" ++ "<error-severity>error</error-severity>" ++
  msgPartStr message ++ "</rpc-error></rpc-reply>"

/-- netconf_data_exists: serialized data-exists error; error-type is the
hardcoded application and the function takes no type argument. -/
def netconf_data_exists (message : Option String) : String :=
  "<rpc-reply><rpc-error>" ++ "<error-type>application</error-type>" ++
  "<error-tag>data-exists</error-tag>" ++ "<error-severity>error</error-severity>" ++
  msgPartStr message ++ "</rpc-error></rpc-reply>"

/-- netconf_data_missing_xml: data-missing error as an XML tree; error-type is
the hardcoded application; with a missing_choice the error-app-tag and
error-info elements are inserted before error-severity. -/
def netconf_data_missing_xml (xret : Option XML) (missing_choice : Option String)
    (message : Option String) : XML :=
  installRpcError xret
    ([xtext "error-type" "application", xtext "error-tag" "data-missing"] ++
     (match missing_choice with
      | none => []
      | some c => [xtext "error-app-tag" "missing-choice",
                   XML.elem "error-info" [xtext "missing-choice" c]]) ++
     [xtext "error-severity" "error"] ++ msgPartXml message)

/-- netconf_data_missing: tree built by netconf_data_missing_xml, rendered. -/
def netconf_data_missing (missing_choice : Option String) (message : Option String) : String :=
  render (netconf_data_missing_xml none missing_choice message)

/-- netconf_operation_not_supported: serialized operation-not-supported error. -/
def netconf_operation_not_supported (type : String) (message : Option String) : String :=
  "<rpc-reply><rpc-error>" ++ "<error-type>" ++ type ++ "</error-type>" ++
  "<error-tag>operation-not-supported</error-tag>" ++ "<error-severity>error</error-severity>" ++
  msgPartStr message ++ "</rpc-error></rpc-reply>"

/-- netconf_operation_failed_xml: operation-failed error as an XML tree. -/
def netconf_operation_failed_xml (xret : Option XML) (type : String)
    (message : Option String) : XML :=
  installRpcError xret
    ([xtext "error-type" type, xtext "error-tag" "operation-failed",
      xtext "error-severity" "error"] ++ msgPartXml message)

/-- netconf_operation_failed: tree built by netconf_operation_failed_xml,
rendered. -/
def netconf_operation_failed (type : String) (message : Option String) : String :=
  render (netconf_operation_failed_xml none type message)

/-- netconf_malformed_message_xml: malformed-message error as an XML tree;
error-type is the hardcoded rpc and the function takes no type argument. -/
def netconf_malformed_message_xml (xret : Option XML) (message : Option String) : XML :=
  installRpcError xret
    ([xtext "error-type" "rpc", xtext "error-tag" "malformed-message",
      xtext "error-severity" "error"] ++ msgPartXml message)

/-- netconf_malformed_message: tree built by netconf_malformed_message_xml,
rendered. -/
def netconf_malformed_message (message : Option String) : String :=
  render (netconf_malformed_message_xml none message)

/-- netconf_data_not_unique_xml: unique-violation error as an XML tree.
Error-type protocol and error-tag operation-failed are hardcoded, with
error-app-tag data-not-unique before error-severity. When the component list
cvk is nonempty an error-info element is appended after error-severity; for
each component name found as a child of x (names not found are skipped) it
holds a non-unique element wrapping that child subtree, which the source
serializes with clicon_xml2cbuf and re-parses into the error-info node. -/
def netconf_data_not_unique_xml (xret : Option XML) (x : XML)
    (cvk : List String) : XML :=
  installRpcError xret
    ([xtext "error-type" "protocol", xtext "error-tag" "operation-failed",
      xtext "error-app-tag" "data-not-unique", xtext "error-severity" "error"] ++
     (match cvk with
      | [] => []
      | _ :: _ =>
        [XML.elem "error-info"
          (cvk.filterMap (fun nm =>
            (xml_find x nm).map (fun xi => XML.elem "non-unique" [xi])))]))

/-- netconf_minmax_elements_xml: min/max-elements violation as an XML tree.
Error-type protocol and error-tag operation-failed are hardcoded; the
error-app-tag is too-many-elements when the max flag is nonzero and
too-few-elements otherwise, and the error-path is the bare name of x. -/
def netconf_minmax_elements_xml (xret : Option XML) (x : XML) (mx : Int) : XML :=
  installRpcError xret
    [xtext "error-type" "protocol", xtext "error-tag" "operation-failed",
     xtext "error-app-tag" ("too-" ++ (if mx ≠ 0 then "many" else "few") ++ "-elements"),
     xtext "error-severity" "error",
     xtext "error-path" (xml_name x)]

/-- Outcome of the external xml_merge call (clixon_xml_map.c is not among the
sources): fatal error, success with the merged tree, or a YANG check failure
with the (partially) merged tree and a reason string. -/
inductive MergeResult where
  | fatal
  | ok (merged : XML)
  | invalid (merged : XML) (reason : String)

/-- Removal of every child of the root, as done by the xml_purge loop in
netconf_trymerge. -/
def purgeChildren : XML → XML
  | .elem n _ => XML.elem n []
  | t => t

/-- netconf_trymerge: duplicate x when the accumulator is empty; otherwise
merge x into it; on a merge reason, purge all children of the output root and
install an operation-failed error of type rpc with the reason as message,
returning 0 (recoverable); return 1 on success and -1 on fatal error. -/
def netconf_trymerge (x : XML) (mg : XML → XML → MergeResult)
    (xret : Option XML) : Int × Option XML :=
  match xret with
  | none => (1, some x)
  | some xr =>
    match mg xr x with
    | .fatal => (-1, some xr)
    | .ok merged => (1, some merged)
    | .invalid merged reason =>
      (0, some (netconf_operation_failed_xml (some (purgeChildren merged))
                  "rpc" (some reason)))

/-- Rollback result flag of backend_commit.h. -/
def ROLLBACK_NOT_APPLIED : Nat := 1

/-- Rollback result flag of backend_commit.h. -/
def ROLLBACK_DB_NOT_DELETED : Nat := 2

/-- Rollback result flag of backend_commit.h. -/
def ROLLBACK_FAILSAFE_APPLIED : Nat := 4

/-- Message constant of backend_commit.h. -/
def COMMIT_NOT_CONFIRMED : String :=
  "Commit was not confirmed; automatic rollback complete."

/-- States of the confirmed-commit state machine (backend_commit.h). -/
inductive confirmed_commit_state where
  | INACTIVE
  | PERSISTENT
  | EPHEMERAL
  | ROLLBACK
deriving DecidableEq

/-- Modelled from the spec: backend_confirm.c is not among the sources. The
spec states that the ROLLBACK to INACTIVE transition, taken after the rollback
image has been promoted back to running, emits the COMMIT_NOT_CONFIRMED
message; other states stay unchanged and emit nothing. -/
def rollback_complete :
    confirmed_commit_state → confirmed_commit_state × Option String
  | .ROLLBACK => (.INACTIVE, some COMMIT_NOT_CONFIRMED)
  | s => (s, none)

/-- One element child of a table row in the datastore reply walked by
mibyang_table_traverse_static: its element name, its body, and whether
xml_spec finds a YANG schema node for it. -/
structure SnmpCol where
  name : String
  body : String
  hasSpec : Bool

/-- The per-row key loop of mibyang_table_traverse_static: for each key name
in order, the first element child of the row with that name is located and its
body converted by snmp_body2oid (abstracted as b2o); the loop breaks at the
first key with no matching child, in which case the row yields no index
vector. -/
def rowIndexValues (b2o : String → String) (keys : List String)
    (row : List SnmpCol) : Option (List String) :=
  match keys with
  | [] => some []
  | k :: ks =>
    match row.find? (fun c => c.name == k) with
    | none => none
    | some c =>
      match rowIndexValues b2o ks row with
      | none => none
      | some vs => some (b2o c.body :: vs)

/-- mibyang_table_traverse_static, abstracted to the registrations it
performs: every row whose index vector is complete contributes one
registration (column name, index vector) per element child that has a schema
node; a row with a missing index contributes nothing and the walk continues
with the remaining rows. -/
def mibyang_table_traverse_static (b2o : String → String) (keys : List String)
    (rows : List (List SnmpCol)) : List (String × List String) :=
  match rows with
  | [] => []
  | row :: rest =>
    (match rowIndexValues b2o keys row with
     | none => []
     | some cvk => (row.filter (fun c => c.hasSpec)).map (fun c => (c.name, cvk)))
    ++ mibyang_table_traverse_static b2o keys rest

/-- The rpc-error child of an envelope (the empty element when absent). -/
def rpcErrorOf (x : XML) : XML :=
  (findChild x "rpc-error").getD (XML.elem "" [])

/-- Names of the rpc-error children of an envelope, in order. -/
def rpcErrorChildNames (x : XML) : List String :=
  (xml_children (rpcErrorOf x)).map xml_name

/-- Whether the rpc-error of an envelope has an error-message child. -/
def hasErrorMessage (x : XML) : Bool :=
  (findChild (rpcErrorOf x) "error-message").isSome

/-- Whether every child of a node is a character-data node. -/
def allTextChildren (x : XML) : Bool :=
  (xml_children x).all (fun c => match c with | XML.text _ => true | XML.elem _ _ => false)

/-- Boolean subsequence test on name lists. -/
def isSubseqOf : List String → List String → Bool
  | [], _ => true
  | _ :: _, [] => false
  | x :: xs, y :: ys => if x = y then isSubseqOf xs ys else isSubseqOf (x :: xs) ys

/-- The child order claimed by the spec for every rpc-error: error-type, then
error-tag, then error-severity, followed by the optional error-app-tag,
error-path, error-info and error-message elements in that order. -/
def claimedCanonicalOrderB (l : List String) : Bool :=
  (l.take 3 == ["error-type", "error-tag", "error-severity"]) &&
  isSubseqOf (l.drop 3) ["error-app-tag", "error-path", "error-info", "error-message"]

/-- Name of an optional error-message element, for child-name equations. -/
def msgNames : Option String → List String
  | none => []
  | some _ => ["error-message"]

/-- Field list form of the optional error-message part. -/
def msgFields : Option String → List (String × String)
  | none => []
  | some m => [("error-message", xml_chardata_encode m)]

/-- Rendering of a list of (name, character data) fields. -/
def renderFields : List (String × String) → String
  | [] => ""
  | (n, b) :: fs => "<" ++ n ++ ">" ++ b ++ "</" ++ n ++ ">" ++ renderFields fs

/-- Serialized rpc-reply/rpc-error envelope around a field list; this is the
reference shape against which the cbuf constructors are compared. -/
def renderErrEnvelope (fields : List (String × String)) : String :=
  "<rpc-reply><rpc-error>" ++ renderFields fields ++ "</rpc-error></rpc-reply>"

/-- The 22 error tags listed in spec section 4.1. -/
def errorTags22 : List String :=
  ["in-use", "invalid-value", "too-big", "missing-attribute", "bad-attribute",
   "unknown-attribute", "missing-element", "bad-element", "unknown-element",
   "unknown-namespace", "access-denied", "lock-denied", "resource-denied",
   "rollback-failed", "data-exists", "data-missing", "operation-not-supported",
   "operation-failed", "malformed-message", "data-not-unique",
   "too-many-elements", "too-few-elements"]

/-- Tags for which clixon_netconf_lib.c defines a serialized (cbuf)
constructor: netconf_in_use, netconf_invalid_value, netconf_too_big,
netconf_missing_attribute, netconf_bad_attribute, netconf_unknown_attribute,
netconf_missing_element, netconf_bad_element, netconf_unknown_element,
netconf_unknown_namespace, netconf_access_denied, netconf_lock_denied,
netconf_resource_denied, netconf_rollback_failed, netconf_data_exists,
netconf_data_missing, netconf_operation_not_supported,
netconf_operation_failed, netconf_malformed_message. -/
def cbufFormTags : List String :=
  ["in-use", "invalid-value", "too-big", "missing-attribute", "bad-attribute",
   "unknown-attribute", "missing-element", "bad-element", "unknown-element",
   "unknown-namespace", "access-denied", "lock-denied", "resource-denied",
   "rollback-failed", "data-exists", "data-missing", "operation-not-supported",
   "operation-failed", "malformed-message"]

/-- Tags for which clixon_netconf_lib.c defines an XML tree constructor:
netconf_invalid_value_xml, netconf_missing_element_xml,
netconf_bad_element_xml, netconf_unknown_element_xml,
netconf_unknown_namespace_xml, netconf_access_denied_xml,
netconf_data_missing_xml, netconf_operation_failed_xml,
netconf_malformed_message_xml, netconf_data_not_unique_xml, and
netconf_minmax_elements_xml (the last covering both too-many-elements and
too-few-elements). -/
def treeFormTags : List String :=
  ["invalid-value", "missing-element", "bad-element", "unknown-element",
   "unknown-namespace", "access-denied", "data-missing", "operation-failed",
   "malformed-message", "data-not-unique", "too-many-elements",
   "too-few-elements"]

/-- Shape of the serialized in-use error as an ordered field list. -/
theorem shape_in_use (type : String) (m : Option String) :
    netconf_in_use type m =
      renderErrEnvelope (("error-type", type) :: ("error-tag", "in-use") ::
        ("error-severity", "error") :: msgFields m) := by
  cases m <;>
    (apply String.ext
     simp [netconf_in_use, renderErrEnvelope, renderFields, msgPartStr, msgFields,
       String.data_append, List.append_assoc])

/-- Shape of the serialized too-big error as an ordered field list. -/
theorem shape_too_big (type : String) (m : Option String) :
    netconf_too_big type m =
      renderErrEnvelope (("error-type", type) :: ("error-tag", "too-big") ::
        ("error-severity", "error") :: msgFields m) := by
  cases m <;>
    (apply String.ext
     simp [netconf_too_big, renderErrEnvelope, renderFields, msgPartStr, msgFields,
       String.data_append, List.append_assoc])

/-- Shape of the serialized missing-attribute error: error-info precedes
error-severity. -/
theorem shape_missing_attribute (type info : String) (m : Option String) :
    netconf_missing_attribute type info m =
      renderErrEnvelope (("error-type", type) :: ("error-tag", "missing-attribute") ::
        ("error-info", info) :: ("error-severity", "error") :: msgFields m) := by
  cases m <;>
    (apply String.ext
     simp [netconf_missing_attribute, renderErrEnvelope, renderFields, msgPartStr,
       msgFields, String.data_append, List.append_assoc])

/-- Shape of the serialized bad-attribute error: error-info precedes
error-severity. -/
theorem shape_bad_attribute (type info : String) (m : Option String) :
    netconf_bad_attribute type info m =
      renderErrEnvelope (("error-type", type) :: ("error-tag", "bad-attribute") ::
        ("error-info", info) :: ("error-severity", "error") :: msgFields m) := by
  cases m <;>
    (apply String.ext
     simp [netconf_bad_attribute, renderErrEnvelope, renderFields, msgPartStr,
       msgFields, String.data_append, List.append_assoc])

/-- Shape of the serialized unknown-attribute error: error-info precedes
error-severity. -/
theorem shape_unknown_attribute (type info : String) (m : Option String) :
    netconf_unknown_attribute type info m =
      renderErrEnvelope (("error-type", type) :: ("error-tag", "unknown-attribute") ::
        ("error-info", info) :: ("error-severity", "error") :: msgFields m) := by
  cases m <;>
    (apply String.ext
     simp [netconf_unknown_attribute, renderErrEnvelope, renderFields, msgPartStr,
       msgFields, String.data_append, List.append_assoc])

/-- Shape of the serialized lock-denied error: error-type is the hardcoded
protocol and error-info precedes error-severity. -/
theorem shape_lock_denied (info : String) (m : Option String) :
    netconf_lock_denied info m =
      renderErrEnvelope (("error-type", "protocol") :: ("error-tag", "lock-denied") ::
        ("error-info", info) :: ("error-severity", "error") :: msgFields m) := by
  cases m <;>
    (apply String.ext
     simp [netconf_lock_denied, renderErrEnvelope, renderFields, msgPartStr,
       msgFields, String.data_append, List.append_assoc])

/-- Shape of the serialized resource-denied error. -/
theorem shape_resource_denied (type : String) (m : Option String) :
    netconf_resource_denied type m =
      renderErrEnvelope (("error-type", type) :: ("error-tag", "resource-denied") ::
        ("error-severity", "error") :: msgFields m) := by
  cases m <;>
    (apply String.ext
     simp [netconf_resource_denied, renderErrEnvelope, renderFields, msgPartStr,
       msgFields, String.data_append, List.append_assoc])

/-- Shape of the serialized rollback-failed error. -/
theorem shape_rollback_failed (type : String) (m : Option String) :
    netconf_rollback_failed type m =
      renderErrEnvelope (("error-type", type) :: ("error-tag", "rollback-failed") ::
        ("error-severity", "error") :: msgFields m) := by
  cases m <;>
    (apply String.ext
     simp [netconf_rollback_failed, renderErrEnvelope, renderFields, msgPartStr,
       msgFields, String.data_append, List.append_assoc])

/-- Shape of the serialized data-exists error: error-type is the hardcoded
application and the constructor takes no type argument. -/
theorem shape_data_exists (m : Option String) :
    netconf_data_exists m =
      renderErrEnvelope (("error-type", "application") :: ("error-tag", "data-exists") ::
        ("error-severity", "error") :: msgFields m) := by
  cases m <;>
    (apply String.ext
     simp [netconf_data_exists, renderErrEnvelope, renderFields, msgPartStr,
       msgFields, String.data_append, List.append_assoc])

/-- Shape of the serialized operation-not-supported error. -/
theorem shape_operation_not_supported (type : String) (m : Option String) :
    netconf_operation_not_supported type m =
      renderErrEnvelope (("error-type", type) :: ("error-tag", "operation-not-supported") ::
        ("error-severity", "error") :: msgFields m) := by
  cases m <;>
    (apply String.ext
     simp [netconf_operation_not_supported, renderErrEnvelope, renderFields, msgPartStr,
       msgFields, String.data_append, List.append_assoc])

/-- An error-message element holding the encoded message differs from one
holding the raw message whenever encoding changes the message. -/
theorem enc_body_ne (m : String) (h : m ≠ xml_chardata_encode m) :
    xtext "error-message" (xml_chardata_encode m) ≠ xtext "error-message" m := by
  intro he
  apply h
  have hb : bodyChildren (xml_chardata_encode m) = bodyChildren m := by
    simpa [xtext] using he
  by_cases hm : m = ""
  · subst hm; rfl
  · by_cases henc : xml_chardata_encode m = ""
    · simp [bodyChildren, hm, henc] at hb
    · simp [bodyChildren, hm, henc] at hb
      exact hb.symm

/-- Claim C1 (amended): only a subset of the 22 tags has both a serialized
and a tree form; where the source derives the serialized form from the tree
form, the serialized form is exactly the rendering of the tree form, and every
tag in the set has at least one of the two forms. -/
theorem claim_C1_amended :
    (∀ tag ∈ errorTags22, tag ∈ cbufFormTags ∨ tag ∈ treeFormTags)
  ∧ (∀ type m, netconf_invalid_value type m = render (netconf_invalid_value_xml none type m))
  ∧ (∀ type element m, netconf_missing_element type element m
       = render (netconf_missing_element_xml none type element m))
  ∧ (∀ type element m, netconf_bad_element type element m
       = render (netconf_bad_element_xml none type element m))
  ∧ (∀ type element m, netconf_unknown_element type element m
       = render (netconf_unknown_element_xml none type element m))
  ∧ (∀ type ns m, netconf_unknown_namespace type ns m
       = render (netconf_unknown_namespace_xml none type ns m))
  ∧ (∀ type m, netconf_access_denied type m = render (netconf_access_denied_xml none type m))
  ∧ (∀ mc m, netconf_data_missing mc m = render (netconf_data_missing_xml none mc m))
  ∧ (∀ type m, netconf_operation_failed type m = render (netconf_operation_failed_xml none type m))
  ∧ (∀ m, netconf_malformed_message m = render (netconf_malformed_message_xml none m)) :=
  ⟨by decide, fun _ _ => rfl, fun _ _ _ => rfl, fun _ _ _ => rfl, fun _ _ _ => rfl,
   fun _ _ _ => rfl, fun _ _ => rfl, fun _ _ => rfl, fun _ _ => rfl, fun _ => rfl⟩

/-- Witness for claim C1: the coverage statement applied at invalid-value. -/
theorem claim_C1_witness :
    ("invalid-value" ∈ errorTags22)
  ∧ ("invalid-value" ∈ cbufFormTags ∨ "invalid-value" ∈ treeFormTags) :=
  ⟨by decide, claim_C1_amended.1 "invalid-value" (by decide)⟩

/-- Counterexample for claim C1 as stated: in-use is in the spec set but has
no XML tree constructor in the source, and data-not-unique is in the set but
has no serialized (cbuf) constructor. -/
theorem claim_C1_counterexample :
    ("in-use" ∈ errorTags22 ∧ "in-use" ∉ treeFormTags)
  ∧ ("data-not-unique" ∈ errorTags22 ∧ "data-not-unique" ∉ cbufFormTags) := by
  decide

/-- Claim C2 (amended): every rpc-error starts with error-type then error-tag,
carries exactly one error-severity with body error, and puts the optional
error-message last; but the constructors that carry error-info or
error-app-tag emit those elements before error-severity (and the min/max
constructor emits error-path after it), not in the canonical trailing order
claimed by the spec. -/
theorem claim_C2_amended :
    (∀ type m, netconf_in_use type m =
       renderErrEnvelope (("error-type", type) :: ("error-tag", "in-use") ::
         ("error-severity", "error") :: msgFields m))
  ∧ (∀ type m, netconf_too_big type m =
       renderErrEnvelope (("error-type", type) :: ("error-tag", "too-big") ::
         ("error-severity", "error") :: msgFields m))
  ∧ (∀ type info m, netconf_missing_attribute type info m =
       renderErrEnvelope (("error-type", type) :: ("error-tag", "missing-attribute") ::
         ("error-info", info) :: ("error-severity", "error") :: msgFields m))
  ∧ (∀ type info m, netconf_bad_attribute type info m =
       renderErrEnvelope (("error-type", type) :: ("error-tag", "bad-attribute") ::
         ("error-info", info) :: ("error-severity", "error") :: msgFields m))
  ∧ (∀ type info m, netconf_unknown_attribute type info m =
       renderErrEnvelope (("error-type", type) :: ("error-tag", "unknown-attribute") ::
         ("error-info", info) :: ("error-severity", "error") :: msgFields m))
  ∧ (∀ info m, netconf_lock_denied info m =
       renderErrEnvelope (("error-type", "protocol") :: ("error-tag", "lock-denied") ::
         ("error-info", info) :: ("error-severity", "error") :: msgFields m))
  ∧ (∀ type m, netconf_resource_denied type m =
       renderErrEnvelope (("error-type", type) :: ("error-tag", "resource-denied") ::
         ("error-severity", "error") :: msgFields m))
  ∧ (∀ type m, netconf_rollback_failed type m =
       renderErrEnvelope (("error-type", type) :: ("error-tag", "rollback-failed") ::
         ("error-severity", "error") :: msgFields m))
  ∧ (∀ m, netconf_data_exists m =
       renderErrEnvelope (("error-type", "application") :: ("error-tag", "data-exists") ::
         ("error-severity", "error") :: msgFields m))
  ∧ (∀ type m, netconf_operation_not_supported type m =
       renderErrEnvelope (("error-type", type) :: ("error-tag", "operation-not-supported") ::
         ("error-severity", "error") :: msgFields m))
  ∧ (∀ type m, rpcErrorChildNames (netconf_invalid_value_xml none type m) =
       ["error-type", "error-tag", "error-severity"] ++ msgNames m)
  ∧ (∀ type tag infotag element m,
       rpcErrorChildNames (netconf_common_xml none type tag infotag element m) =
       ["error-type", "error-tag", "error-info", "error-severity"] ++ msgNames m)
  ∧ (∀ type m, rpcErrorChildNames (netconf_access_denied_xml none type m) =
       ["error-type", "error-tag", "error-severity"] ++ msgNames m)
  ∧ (∀ mc m, rpcErrorChildNames (netconf_data_missing_xml none mc m) =
       ["error-type", "error-tag"] ++
       (match mc with | none => [] | some _ => ["error-app-tag", "error-info"]) ++
       ["error-severity"] ++ msgNames m)
  ∧ (∀ type m, rpcErrorChildNames (netconf_operation_failed_xml none type m) =
       ["error-type", "error-tag", "error-severity"] ++ msgNames m)
  ∧ (∀ m, rpcErrorChildNames (netconf_malformed_message_xml none m) =
       ["error-type", "error-tag", "error-severity"] ++ msgNames m)
  ∧ (∀ x cvk, rpcErrorChildNames (netconf_data_not_unique_xml none x cvk) =
       ["error-type", "error-tag", "error-app-tag", "error-severity"] ++
       (match cvk with | [] => [] | _ :: _ => ["error-info"]))
  ∧ (∀ x mx, rpcErrorChildNames (netconf_minmax_elements_xml none x mx) =
       ["error-type", "error-tag", "error-app-tag", "error-severity", "error-path"])
  ∧ (∀ type m, findChild (rpcErrorOf (netconf_invalid_value_xml none type m))
       "error-severity" = some (xtext "error-severity" "error"))
  ∧ (∀ type tag infotag element m,
       findChild (rpcErrorOf (netconf_common_xml none type tag infotag element m))
       "error-severity" = some (xtext "error-severity" "error"))
  ∧ (∀ type m, findChild (rpcErrorOf (netconf_access_denied_xml none type m))
       "error-severity" = some (xtext "error-severity" "error"))
  ∧ (∀ mc m, findChild (rpcErrorOf (netconf_data_missing_xml none mc m))
       "error-severity" = some (xtext "error-severity" "error"))
  ∧ (∀ type m, findChild (rpcErrorOf (netconf_operation_failed_xml none type m))
       "error-severity" = some (xtext "error-severity" "error"))
  ∧ (∀ m, findChild (rpcErrorOf (netconf_malformed_message_xml none m))
       "error-severity" = some (xtext "error-severity" "error"))
  ∧ (∀ x cvk, findChild (rpcErrorOf (netconf_data_not_unique_xml none x cvk))
       "error-severity" = some (xtext "error-severity" "error"))
  ∧ (∀ x mx, findChild (rpcErrorOf (netconf_minmax_elements_xml none x mx))
       "error-severity" = some (xtext "error-severity" "error")) :=
  ⟨shape_in_use, shape_too_big, shape_missing_attribute, shape_bad_attribute,
   shape_unknown_attribute, shape_lock_denied, shape_resource_denied,
   shape_rollback_failed, shape_data_exists, shape_operation_not_supported,
   fun _ m => by cases m <;> rfl,
   fun _ _ _ _ m => by cases m <;> rfl,
   fun _ m => by cases m <;> rfl,
   fun mc m => by cases mc <;> cases m <;> rfl,
   fun _ m => by cases m <;> rfl,
   fun m => by cases m <;> rfl,
   fun _ cvk => by cases cvk <;> rfl,
   fun _ _ => rfl,
   fun _ m => by cases m <;> rfl,
   fun _ _ _ _ m => by cases m <;> rfl,
   fun _ m => by cases m <;> rfl,
   fun mc m => by cases mc <;> cases m <;> rfl,
   fun _ m => by cases m <;> rfl,
   fun m => by cases m <;> rfl,
   fun _ cvk => by cases cvk <;> rfl,
   fun _ _ => rfl⟩

/-- Counterexample for claim C2 as stated: the missing-element envelope has
children error-type, error-tag, error-info, error-severity, so error-info
precedes error-severity, violating the claimed canonical order. -/
theorem claim_C2_counterexample :
    claimedCanonicalOrderB
      (rpcErrorChildNames (netconf_missing_element_xml none "application" "x" none)) = false :=
  rfl

/-- Claim C3 (amended): lock-denied is always emitted with type protocol,
malformed-message with type rpc and data-exists with type application; in
addition data-missing is always application and data-not-unique and the
min/max-elements errors are always protocol (none of these constructors takes
a type argument); the remaining constructors embed the caller-supplied type
verbatim. -/
theorem claim_C3_amended :
    (∀ info m, netconf_lock_denied info m =
       renderErrEnvelope (("error-type", "protocol") :: ("error-tag", "lock-denied") ::
         ("error-info", info) :: ("error-severity", "error") :: msgFields m))
  ∧ (∀ m, findChild (rpcErrorOf (netconf_malformed_message_xml none m)) "error-type"
       = some (xtext "error-type" "rpc"))
  ∧ (∀ m, netconf_data_exists m =
       renderErrEnvelope (("error-type", "application") :: ("error-tag", "data-exists") ::
         ("error-severity", "error") :: msgFields m))
  ∧ (∀ mc m, findChild (rpcErrorOf (netconf_data_missing_xml none mc m)) "error-type"
       = some (xtext "error-type" "application"))
  ∧ (∀ x cvk, findChild (rpcErrorOf (netconf_data_not_unique_xml none x cvk)) "error-type"
       = some (xtext "error-type" "protocol"))
  ∧ (∀ x mx, findChild (rpcErrorOf (netconf_minmax_elements_xml none x mx)) "error-type"
       = some (xtext "error-type" "protocol"))
  ∧ (∀ type m, findChild (rpcErrorOf (netconf_invalid_value_xml none type m)) "error-type"
       = some (xtext "error-type" type))
  ∧ (∀ type tag infotag element m,
       findChild (rpcErrorOf (netconf_common_xml none type tag infotag element m)) "error-type"
       = some (xtext "error-type" type))
  ∧ (∀ type m, findChild (rpcErrorOf (netconf_access_denied_xml none type m)) "error-type"
       = some (xtext "error-type" type))
  ∧ (∀ type m, findChild (rpcErrorOf (netconf_operation_failed_xml none type m)) "error-type"
       = some (xtext "error-type" type))
  ∧ (∀ type m, netconf_in_use type m =
       renderErrEnvelope (("error-type", type) :: ("error-tag", "in-use") ::
         ("error-severity", "error") :: msgFields m))
  ∧ (∀ type m, netconf_too_big type m =
       renderErrEnvelope (("error-type", type) :: ("error-tag", "too-big") ::
         ("error-severity", "error") :: msgFields m))
  ∧ (∀ type info m, netconf_missing_attribute type info m =
       renderErrEnvelope (("error-type", type) :: ("error-tag", "missing-attribute") ::
         ("error-info", info) :: ("error-severity", "error") :: msgFields m))
  ∧ (∀ type info m, netconf_bad_attribute type info m =
       renderErrEnvelope (("error-type", type) :: ("error-tag", "bad-attribute") ::
         ("error-info", info) :: ("error-severity", "error") :: msgFields m))
  ∧ (∀ type info m, netconf_unknown_attribute type info m =
       renderErrEnvelope (("error-type", type) :: ("error-tag", "unknown-attribute") ::
         ("error-info", info) :: ("error-severity", "error") :: msgFields m))
  ∧ (∀ type m, netconf_resource_denied type m =
       renderErrEnvelope (("error-type", type) :: ("error-tag", "resource-denied") ::
         ("error-severity", "error") :: msgFields m))
  ∧ (∀ type m, netconf_rollback_failed type m =
       renderErrEnvelope (("error-type", type) :: ("error-tag", "rollback-failed") ::
         ("error-severity", "error") :: msgFields m))
  ∧ (∀ type m, netconf_operation_not_supported type m =
       renderErrEnvelope (("error-type", type) :: ("error-tag", "operation-not-supported") ::
         ("error-severity", "error") :: msgFields m)) :=
  ⟨shape_lock_denied,
   fun m => by cases m <;> rfl,
   shape_data_exists,
   fun mc m => by cases mc <;> cases m <;> rfl,
   fun _ cvk => by cases cvk <;> rfl,
   fun _ _ => rfl,
   fun _ m => by cases m <;> rfl,
   fun _ _ _ _ m => by cases m <;> rfl,
   fun _ m => by cases m <;> rfl,
   fun _ m => by cases m <;> rfl,
   shape_in_use, shape_too_big, shape_missing_attribute, shape_bad_attribute,
   shape_unknown_attribute, shape_resource_denied, shape_rollback_failed,
   shape_operation_not_supported⟩

/-- Counterexample for claim C3 as stated: the data-missing and
data-not-unique constructors are outside the trio the claim allows to be
hardcoded, yet they take no type argument and always emit the fixed types
application and protocol respectively, here shown at concrete inputs where no
such type was supplied by the caller. -/
theorem claim_C3_counterexample :
    findChild (rpcErrorOf (netconf_data_missing_xml none (some "interface-sw")
        (some "msg"))) "error-type" = some (xtext "error-type" "application")
  ∧ findChild (rpcErrorOf (netconf_data_not_unique_xml none
        (XML.elem "y" []) ["k"])) "error-type" = some (xtext "error-type" "protocol") :=
  ⟨rfl, rfl⟩

/-- Claim C4: every error constructor chardata-encodes a non-NULL message
before embedding it as the body of the error-message element, so the raw
unescaped message text never appears in the output (first conjunct: whenever
encoding changes the message, the emitted error-message element is not the
one holding the raw text). -/
theorem claim_C4 :
    (∀ m, m ≠ xml_chardata_encode m →
       findChild (rpcErrorOf (netconf_operation_failed_xml none "rpc" (some m)))
         "error-message" ≠ some (xtext "error-message" m))
  ∧ (∀ type m, netconf_in_use type (some m) =
       renderErrEnvelope [("error-type", type), ("error-tag", "in-use"),
         ("error-severity", "error"), ("error-message", xml_chardata_encode m)])
  ∧ (∀ type m, netconf_too_big type (some m) =
       renderErrEnvelope [("error-type", type), ("error-tag", "too-big"),
         ("error-severity", "error"), ("error-message", xml_chardata_encode m)])
  ∧ (∀ type info m, netconf_missing_attribute type info (some m) =
       renderErrEnvelope [("error-type", type), ("error-tag", "missing-attribute"),
         ("error-info", info), ("error-severity", "error"),
         ("error-message", xml_chardata_encode m)])
  ∧ (∀ type info m, netconf_bad_attribute type info (some m) =
       renderErrEnvelope [("error-type", type), ("error-tag", "bad-attribute"),
         ("error-info", info), ("error-severity", "error"),
         ("error-message", xml_chardata_encode m)])
  ∧ (∀ type info m, netconf_unknown_attribute type info (some m) =
       renderErrEnvelope [("error-type", type), ("error-tag", "unknown-attribute"),
         ("error-info", info), ("error-severity", "error"),
         ("error-message", xml_chardata_encode m)])
  ∧ (∀ info m, netconf_lock_denied info (some m) =
       renderErrEnvelope [("error-type", "protocol"), ("error-tag", "lock-denied"),
         ("error-info", info), ("error-severity", "error"),
         ("error-message", xml_chardata_encode m)])
  ∧ (∀ type m, netconf_resource_denied type (some m) =
       renderErrEnvelope [("error-type", type), ("error-tag", "resource-denied"),
         ("error-severity", "error"), ("error-message", xml_chardata_encode m)])
  ∧ (∀ type m, netconf_rollback_failed type (some m) =
       renderErrEnvelope [("error-type", type), ("error-tag", "rollback-failed"),
         ("error-severity", "error"), ("error-message", xml_chardata_encode m)])
  ∧ (∀ m, netconf_data_exists (some m) =
       renderErrEnvelope [("error-type", "application"), ("error-tag", "data-exists"),
         ("error-severity", "error"), ("error-message", xml_chardata_encode m)])
  ∧ (∀ type m, netconf_operation_not_supported type (some m) =
       renderErrEnvelope [("error-type", type), ("error-tag", "operation-not-supported"),
         ("error-severity", "error"), ("error-message", xml_chardata_encode m)])
  ∧ (∀ type m, findChild (rpcErrorOf (netconf_invalid_value_xml none type (some m)))
       "error-message" = some (xtext "error-message" (xml_chardata_encode m)))
  ∧ (∀ type tag infotag element m,
       findChild (rpcErrorOf (netconf_common_xml none type tag infotag element (some m)))
       "error-message" = some (xtext "error-message" (xml_chardata_encode m)))
  ∧ (∀ type m, findChild (rpcErrorOf (netconf_access_denied_xml none type (some m)))
       "error-message" = some (xtext "error-message" (xml_chardata_encode m)))
  ∧ (∀ mc m, findChild (rpcErrorOf (netconf_data_missing_xml none mc (some m)))
       "error-message" = some (xtext "error-message" (xml_chardata_encode m)))
  ∧ (∀ type m, findChild (rpcErrorOf (netconf_operation_failed_xml none type (some m)))
       "error-message" = some (xtext "error-message" (xml_chardata_encode m)))
  ∧ (∀ m, findChild (rpcErrorOf (netconf_malformed_message_xml none (some m)))
       "error-message" = some (xtext "error-message" (xml_chardata_encode m))) :=
  ⟨fun m h hc => by
     have he : findChild (rpcErrorOf (netconf_operation_failed_xml none "rpc" (some m)))
         "error-message" = some (xtext "error-message" (xml_chardata_encode m)) := rfl
     rw [he] at hc
     exact enc_body_ne m h (Option.some.inj hc),
   fun type m => shape_in_use type (some m),
   fun type m => shape_too_big type (some m),
   fun type info m => shape_missing_attribute type info (some m),
   fun type info m => shape_bad_attribute type info (some m),
   fun type info m => shape_unknown_attribute type info (some m),
   fun info m => shape_lock_denied info (some m),
   fun type m => shape_resource_denied type (some m),
   fun type m => shape_rollback_failed type (some m),
   fun m => shape_data_exists (some m),
   fun type m => shape_operation_not_supported type (some m),
   fun _ _ => rfl,
   fun _ _ _ _ _ => rfl,
   fun _ _ => rfl,
   fun mc m => by cases mc <;> rfl,
   fun _ _ => rfl,
   fun _ => rfl⟩

/-- Witness for claim C4: the raw-text conjunct discharged at a message
containing a character the encoder rewrites. -/
theorem claim_C4_witness :
    ("a<b" ≠ xml_chardata_encode "a<b")
  ∧ findChild (rpcErrorOf (netconf_operation_failed_xml none "rpc" (some "a<b")))
      "error-message" ≠ some (xtext "error-message" "a<b") :=
  ⟨by decide, claim_C4.1 "a<b" (by decide)⟩

/-- Claim C5 (amended): a unique violation produces error-type protocol,
error-tag operation-failed, error-app-tag data-not-unique and, for a nonempty
component list, an error-info whose children are one non-unique entry per
component found as a child of the violating list element; each entry wraps the
rendered XML subtree of the offending sibling element, not its path. -/
theorem claim_C5_amended (x : XML) (cvk : List String) (h : cvk ≠ []) :
    xml_children (rpcErrorOf (netconf_data_not_unique_xml none x cvk)) =
      [xtext "error-type" "protocol", xtext "error-tag" "operation-failed",
       xtext "error-app-tag" "data-not-unique", xtext "error-severity" "error",
       XML.elem "error-info"
         (cvk.filterMap (fun nm => (xml_find x nm).map (fun xi => XML.elem "non-unique" [xi])))]
  ∧ ∀ e ∈ cvk.filterMap (fun nm => (xml_find x nm).map (fun xi => XML.elem "non-unique" [xi])),
      ∃ nm ∈ cvk, ∃ xi, xml_find x nm = some xi ∧ e = XML.elem "non-unique" [xi] := by
  constructor
  · cases cvk with
    | nil => exact absurd rfl h
    | cons a l => rfl
  · intro e he
    simp only [List.mem_filterMap] at he
    obtain ⟨nm, hnm, hmap⟩ := he
    obtain ⟨xi, hfind, hxi⟩ := Option.map_eq_some'.mp hmap
    exact ⟨nm, hnm, xi, hfind, hxi.symm⟩

/-- Witness for claim C5: the amended statement applied at a concrete row with
one duplicate component. -/
theorem claim_C5_witness :
    ((["a"] : List String) ≠ [])
  ∧ (xml_children (rpcErrorOf (netconf_data_not_unique_xml none
        (XML.elem "y" [XML.elem "a" [XML.text "1"]]) ["a"])) =
      [xtext "error-type" "protocol", xtext "error-tag" "operation-failed",
       xtext "error-app-tag" "data-not-unique", xtext "error-severity" "error",
       XML.elem "error-info"
         ((["a"] : List String).filterMap (fun nm =>
           (xml_find (XML.elem "y" [XML.elem "a" [XML.text "1"]]) nm).map
             (fun xi => XML.elem "non-unique" [xi])))]
  ∧ ∀ e ∈ (["a"] : List String).filterMap (fun nm =>
        (xml_find (XML.elem "y" [XML.elem "a" [XML.text "1"]]) nm).map
          (fun xi => XML.elem "non-unique" [xi])),
      ∃ nm ∈ (["a"] : List String), ∃ xi,
        xml_find (XML.elem "y" [XML.elem "a" [XML.text "1"]]) nm = some xi ∧
        e = XML.elem "non-unique" [xi]) :=
  ⟨by decide, claim_C5_amended (XML.elem "y" [XML.elem "a" [XML.text "1"]]) ["a"] (by decide)⟩

/-- Counterexample for claim C5 as stated: at a concrete duplicate the
non-unique entry holds the offending sibling element as a nested XML subtree
(its child is an element, not character data), so the error-info body does not
enumerate sibling paths. -/
theorem claim_C5_counterexample :
    findChild (rpcErrorOf (netconf_data_not_unique_xml none
        (XML.elem "y" [XML.elem "a" [XML.text "1"]]) ["a"])) "error-info"
      = some (XML.elem "error-info" [XML.elem "non-unique" [XML.elem "a" [XML.text "1"]]])
  ∧ allTextChildren (XML.elem "non-unique" [XML.elem "a" [XML.text "1"]]) = false :=
  ⟨rfl, rfl⟩

/-- Claim C6: a min/max-elements violation produces error-tag
operation-failed with error-app-tag too-many-elements when the max bound was
violated (nonzero max flag) and too-few-elements otherwise, together with an
error-path element naming the offending list. -/
theorem claim_C6 (x : XML) (mx : Int) :
    (mx ≠ 0 → xml_children (rpcErrorOf (netconf_minmax_elements_xml none x mx)) =
      [xtext "error-type" "protocol", xtext "error-tag" "operation-failed",
       xtext "error-app-tag" "too-many-elements", xtext "error-severity" "error",
       xtext "error-path" (xml_name x)])
  ∧ (mx = 0 → xml_children (rpcErrorOf (netconf_minmax_elements_xml none x mx)) =
      [xtext "error-type" "protocol", xtext "error-tag" "operation-failed",
       xtext "error-app-tag" "too-few-elements", xtext "error-severity" "error",
       xtext "error-path" (xml_name x)]) := by
  constructor
  · intro h
    unfold netconf_minmax_elements_xml
    rw [if_pos h]
    simp [rpcErrorOf, findChild, xml_children, xml_name, installRpcError]
  · intro h
    unfold netconf_minmax_elements_xml
    rw [if_neg (fun hn => hn h)]
    simp [rpcErrorOf, findChild, xml_children, xml_name, installRpcError]

/-- Witness for claim C6: both bounds at a concrete list element. -/
theorem claim_C6_witness :
    xml_children (rpcErrorOf (netconf_minmax_elements_xml none (XML.elem "servers" []) 1)) =
      [xtext "error-type" "protocol", xtext "error-tag" "operation-failed",
       xtext "error-app-tag" "too-many-elements", xtext "error-severity" "error",
       xtext "error-path" (xml_name (XML.elem "servers" []))]
  ∧ xml_children (rpcErrorOf (netconf_minmax_elements_xml none (XML.elem "servers" []) 0)) =
      [xtext "error-type" "protocol", xtext "error-tag" "operation-failed",
       xtext "error-app-tag" "too-few-elements", xtext "error-severity" "error",
       xtext "error-path" (xml_name (XML.elem "servers" []))] :=
  ⟨(claim_C6 (XML.elem "servers" []) 1).1 (by decide),
   (claim_C6 (XML.elem "servers" []) 0).2 rfl⟩

/-- Claim C7: netconf_trymerge returns 1 (ok) when the accumulator is empty or
the merge succeeds, -1 on fatal error, and 0 (recoverable) when the merge
produces a reason, in which case all existing children of the output root are
removed and a single operation-failed rpc-error of type rpc carrying the
reason is installed on it. -/
theorem claim_C7 (x xr m : XML) (mg : XML → XML → MergeResult) (r n : String)
    (cs : List XML) :
    (netconf_trymerge x mg none = (1, some x))
  ∧ (mg xr x = MergeResult.fatal → (netconf_trymerge x mg (some xr)).1 = -1)
  ∧ (mg xr x = MergeResult.ok m → netconf_trymerge x mg (some xr) = (1, some m))
  ∧ (mg xr x = MergeResult.invalid (XML.elem n cs) r →
       netconf_trymerge x mg (some xr) =
         (0, some (XML.elem "rpc-reply" [XML.elem "rpc-error"
             [xtext "error-type" "rpc", xtext "error-tag" "operation-failed",
              xtext "error-severity" "error",
              xtext "error-message" (xml_chardata_encode r)]]))) := by
  refine ⟨rfl, fun h => ?_, fun h => ?_, fun h => ?_⟩ <;>
    simp [netconf_trymerge, h, netconf_operation_failed_xml, installRpcError,
      purgeChildren, msgPartXml]

/-- Witness for claim C7: the recoverable branch at a concrete merge oracle
that fails with a reason on a root carrying existing children. -/
theorem claim_C7_witness :
    ((fun _ _ => MergeResult.invalid (XML.elem "t" [XML.text "junk"]) "why")
       (XML.elem "d" []) (XML.elem "c" [])
     = MergeResult.invalid (XML.elem "t" [XML.text "junk"]) "why")
  ∧ netconf_trymerge (XML.elem "c" [])
      (fun _ _ => MergeResult.invalid (XML.elem "t" [XML.text "junk"]) "why")
      (some (XML.elem "d" [])) =
      (0, some (XML.elem "rpc-reply" [XML.elem "rpc-error"
          [xtext "error-type" "rpc", xtext "error-tag" "operation-failed",
           xtext "error-severity" "error",
           xtext "error-message" (xml_chardata_encode "why")]])) :=
  ⟨rfl,
   (claim_C7 (XML.elem "c" []) (XML.elem "d" []) (XML.elem "" [])
     (fun _ _ => MergeResult.invalid (XML.elem "t" [XML.text "junk"]) "why")
     "why" "t" [XML.text "junk"]).2.2.2 rfl⟩

/-- Claim C8: the ROLLBACK to INACTIVE transition emits exactly the message
Commit was not confirmed; automatic rollback complete., and the three rollback
result flags not-applied, db-not-deleted and failsafe-applied are nonzero,
pairwise-disjoint bit values that fit in one byte. -/
theorem claim_C8 :
    rollback_complete confirmed_commit_state.ROLLBACK =
      (confirmed_commit_state.INACTIVE,
       some "Commit was not confirmed; automatic rollback complete.")
  ∧ COMMIT_NOT_CONFIRMED = "Commit was not confirmed; automatic rollback complete."
  ∧ ROLLBACK_NOT_APPLIED &&& ROLLBACK_DB_NOT_DELETED = 0
  ∧ ROLLBACK_NOT_APPLIED &&& ROLLBACK_FAILSAFE_APPLIED = 0
  ∧ ROLLBACK_DB_NOT_DELETED &&& ROLLBACK_FAILSAFE_APPLIED = 0
  ∧ ROLLBACK_NOT_APPLIED ≠ 0 ∧ ROLLBACK_DB_NOT_DELETED ≠ 0
  ∧ ROLLBACK_FAILSAFE_APPLIED ≠ 0
  ∧ ROLLBACK_NOT_APPLIED < 256 ∧ ROLLBACK_DB_NOT_DELETED < 256
  ∧ ROLLBACK_FAILSAFE_APPLIED < 256 := by
  decide

/-- Claim C9: the static table walk registers per-row leaf OIDs only for rows
whose every index column is present: a row with a missing index contributes
nothing and the walk continues unchanged over the remaining rows, while a row
with a complete index vector contributes one registration per column that has
a schema node. -/
theorem claim_C9 :
    (∀ (b2o : String → String) keys rows1 row rows2,
       rowIndexValues b2o keys row = none →
       mibyang_table_traverse_static b2o keys (rows1 ++ row :: rows2) =
       mibyang_table_traverse_static b2o keys (rows1 ++ rows2))
  ∧ (∀ (b2o : String → String) keys row rest cvk,
       rowIndexValues b2o keys row = some cvk →
       mibyang_table_traverse_static b2o keys (row :: rest) =
       (row.filter (fun c => c.hasSpec)).map (fun c => (c.name, cvk)) ++
         mibyang_table_traverse_static b2o keys rest) := by
  constructor
  · intro b2o keys rows1 row rows2 h
    induction rows1 with
    | nil => simp [mibyang_table_traverse_static, h]
    | cons r rs ih => simp [mibyang_table_traverse_static, ih]
  · intro b2o keys row rest cvk h
    simp [mibyang_table_traverse_static, h]

/-- Witness for claim C9: a concrete table whose middle row misses the index
column is skipped silently, and a complete row registers its columns. -/
theorem claim_C9_witness :
    (rowIndexValues (fun s => s) ["k"] [SnmpCol.mk "other" "7" true] = none)
  ∧ (mibyang_table_traverse_static (fun s => s) ["k"]
       ([[SnmpCol.mk "k" "1" true, SnmpCol.mk "v" "x" true]] ++
        [SnmpCol.mk "other" "7" true] ::
        [[SnmpCol.mk "k" "2" true, SnmpCol.mk "v" "y" false]]) =
     mibyang_table_traverse_static (fun s => s) ["k"]
       ([[SnmpCol.mk "k" "1" true, SnmpCol.mk "v" "x" true]] ++
        [[SnmpCol.mk "k" "2" true, SnmpCol.mk "v" "y" false]]))
  ∧ (rowIndexValues (fun s => s) ["k"] [SnmpCol.mk "k" "1" true, SnmpCol.mk "v" "x" true]
       = some ["1"])
  ∧ (mibyang_table_traverse_static (fun s => s) ["k"]
       ([SnmpCol.mk "k" "1" true, SnmpCol.mk "v" "x" true] :: []) =
     ([SnmpCol.mk "k" "1" true, SnmpCol.mk "v" "x" true].filter
        (fun c => c.hasSpec)).map (fun c => (c.name, ["1"])) ++
       mibyang_table_traverse_static (fun s => s) ["k"] []) :=
  ⟨rfl,
   claim_C9.1 (fun s => s) ["k"] [[SnmpCol.mk "k" "1" true, SnmpCol.mk "v" "x" true]]
     [SnmpCol.mk "other" "7" true]
     [[SnmpCol.mk "k" "2" true, SnmpCol.mk "v" "y" false]] rfl,
   rfl,
   claim_C9.2 (fun s => s) ["k"] [SnmpCol.mk "k" "1" true, SnmpCol.mk "v" "x" true]
     [] ["1"] rfl⟩

/-- Claim C10: in every error constructor an error-message element appears in
the produced envelope exactly when the message argument is non-NULL; a NULL
message is accepted and yields a well-formed rpc-reply/rpc-error envelope with
no error-message element (the serialized constructors show the same through
their field lists, where the error-message field is present exactly for a
non-NULL message; the two constructors with no message argument never emit
one). -/
theorem claim_C10 :
    (∀ type m, hasErrorMessage (netconf_invalid_value_xml none type m) = m.isSome)
  ∧ (∀ type tag infotag element m,
       hasErrorMessage (netconf_common_xml none type tag infotag element m) = m.isSome)
  ∧ (∀ type m, hasErrorMessage (netconf_access_denied_xml none type m) = m.isSome)
  ∧ (∀ mc m, hasErrorMessage (netconf_data_missing_xml none mc m) = m.isSome)
  ∧ (∀ type m, hasErrorMessage (netconf_operation_failed_xml none type m) = m.isSome)
  ∧ (∀ m, hasErrorMessage (netconf_malformed_message_xml none m) = m.isSome)
  ∧ (∀ x cvk, hasErrorMessage (netconf_data_not_unique_xml none x cvk) = false)
  ∧ (∀ x mx, hasErrorMessage (netconf_minmax_elements_xml none x mx) = false)
  ∧ (∀ type, netconf_invalid_value_xml none type none =
       XML.elem "rpc-reply" [XML.elem "rpc-error"
         [xtext "error-type" type, xtext "error-tag" "invalid-value",
          xtext "error-severity" "error"]])
  ∧ (∀ type tag infotag element,
       netconf_common_xml none type tag infotag element none =
       XML.elem "rpc-reply" [XML.elem "rpc-error"
         [xtext "error-type" type, xtext "error-tag" tag,
          XML.elem "error-info" [xtext infotag element],
          xtext "error-severity" "error"]])
  ∧ (∀ type, netconf_access_denied_xml none type none =
       XML.elem "rpc-reply" [XML.elem "rpc-error"
         [xtext "error-type" type, xtext "error-tag" "access-denied",
          xtext "error-severity" "error"]])
  ∧ (netconf_data_missing_xml none none none =
       XML.elem "rpc-reply" [XML.elem "rpc-error"
         [xtext "error-type" "application", xtext "error-tag" "data-missing",
          xtext "error-severity" "error"]])
  ∧ (∀ type, netconf_operation_failed_xml none type none =
       XML.elem "rpc-reply" [XML.elem "rpc-error"
         [xtext "error-type" type, xtext "error-tag" "operation-failed",
          xtext "error-severity" "error"]])
  ∧ (netconf_malformed_message_xml none none =
       XML.elem "rpc-reply" [XML.elem "rpc-error"
         [xtext "error-type" "rpc", xtext "error-tag" "malformed-message",
          xtext "error-severity" "error"]])
  ∧ (∀ type m, netconf_in_use type m =
       renderErrEnvelope (("error-type", type) :: ("error-tag", "in-use") ::
         ("error-severity", "error") :: msgFields m))
  ∧ (∀ type m, netconf_too_big type m =
       renderErrEnvelope (("error-type", type) :: ("error-tag", "too-big") ::
         ("error-severity", "error") :: msgFields m))
  ∧ (∀ type info m, netconf_missing_attribute type info m =
       renderErrEnvelope (("error-type", type) :: ("error-tag", "missing-attribute") ::
         ("error-info", info) :: ("error-severity", "error") :: msgFields m))
  ∧ (∀ type info m, netconf_bad_attribute type info m =
       renderErrEnvelope (("error-type", type) :: ("error-tag", "bad-attribute") ::
         ("error-info", info) :: ("error-severity", "error") :: msgFields m))
  ∧ (∀ type info m, netconf_unknown_attribute type info m =
       renderErrEnvelope (("error-type", type) :: ("error-tag", "unknown-attribute") ::
         ("error-info", info) :: ("error-severity", "error") :: msgFields m))
  ∧ (∀ info m, netconf_lock_denied info m =
       renderErrEnvelope (("error-type", "protocol") :: ("error-tag", "lock-denied") ::
         ("error-info", info) :: ("error-severity", "error") :: msgFields m))
  ∧ (∀ type m, netconf_resource_denied type m =
       renderErrEnvelope (("error-type", type) :: ("error-tag", "resource-denied") ::
         ("error-severity", "error") :: msgFields m))
  ∧ (∀ type m, netconf_rollback_failed type m =
       renderErrEnvelope (("error-type", type) :: ("error-tag", "rollback-failed") ::
         ("error-severity", "error") :: msgFields m))
  ∧ (∀ m, netconf_data_exists m =
       renderErrEnvelope (("error-type", "application") :: ("error-tag", "data-exists") ::
         ("error-severity", "error") :: msgFields m))
  ∧ (∀ type m, netconf_operation_not_supported type m =
       renderErrEnvelope (("error-type", type) :: ("error-tag", "operation-not-supported") ::
         ("error-severity", "error") :: msgFields m))
  ∧ (∀ m, msgFields m = [] ↔ m = none) :=
  ⟨fun _ m => by cases m <;> rfl,
   fun _ _ _ _ m => by cases m <;> rfl,
   fun _ m => by cases m <;> rfl,
   fun mc m => by cases mc <;> cases m <;> rfl,
   fun _ m => by cases m <;> rfl,
   fun m => by cases m <;> rfl,
   fun _ cvk => by cases cvk <;> rfl,
   fun _ _ => rfl,
   fun _ => rfl,
   fun _ _ _ _ => rfl,
   fun _ => rfl,
   rfl,
   fun _ => rfl,
   rfl,
   shape_in_use, shape_too_big, shape_missing_attribute, shape_bad_attribute,
   shape_unknown_attribute, shape_lock_denied, shape_resource_denied,
   shape_rollback_failed, shape_data_exists, shape_operation_not_supported,
   fun m => by cases m <;> simp [msgFields]⟩
